import Mathlib

/-!
Verification of the permission-evaluation and subscription/usage-limit
enforcement engine of a multi-tenant SaaS backend.

The data model and operations below are a shallow embedding of the
TypeScript services (permission, subscription, usage).  The persistent
store is modelled as a state structure holding the relevant tables as
lists of rows; each service function becomes a Lean function that takes
the state (and, where the source reads the clock, an explicit `now`
timestamp in milliseconds, or an explicit fresh row id where the store
generates one) and returns its result together with the successor state.
Timestamps are `Int` milliseconds since the epoch (the source compares
`Date` values); quantities and limits are `Int` (the source uses JS
numbers over integer columns).
-/

namespace SaaS

/-- Row of the roles table: unique key (tenantId, name) in the store. -/
structure RoleRow where
  tenantId : String
  name : String
  permissions : List String
  isDefault : Bool
deriving Repr, DecidableEq

/-- Row of the organization_members table: unique key (organizationId, userId). -/
structure MemberRow where
  organizationId : String
  userId : String
  role : String
deriving Repr, DecidableEq

/-- Row of the subscription_tiers table; limits is a JSON object modelled
as an association list with the first binding of a key authoritative. -/
structure TierRow where
  id : String
  tenantId : String
  name : String
  features : List String
  limits : List (String × Int)
deriving Repr, DecidableEq

/-- Row of the subscriptions table: unique index on organizationId. -/
structure SubscriptionRow where
  id : String
  organizationId : String
  tierId : String
  status : String
  startDate : Int
  expirationDate : Option Int
deriving Repr, DecidableEq

/-- Row of the organizations table (the fields the engine touches). -/
structure OrgRow where
  id : String
  tenantId : String
  name : String
  ownerId : String
  subscriptionId : Option String
deriving Repr, DecidableEq

/-- Row of the usage_records table (append-only event log). -/
structure UsageRow where
  id : String
  organizationId : String
  tenantId : String
  metricName : String
  quantity : Int
  timestamp : Int
deriving Repr, DecidableEq

/-- The store state: the tables the engine reads and writes. -/
structure DbState where
  roles : List RoleRow
  members : List MemberRow
  tiers : List TierRow
  subscriptions : List SubscriptionRow
  organizations : List OrgRow
  usageRecords : List UsageRow
deriving Repr, DecidableEq

/-- The Subscription value returned by the subscription service: the row
fields together with the features and limits copied from the tier. -/
structure Subscription where
  id : String
  organizationId : String
  tierId : String
  status : String
  startDate : Int
  expirationDate : Option Int
  features : List String
  limits : List (String × Int)
deriving Repr, DecidableEq

/-- Result record of checkLimit. -/
structure LimitCheck where
  withinLimit : Bool
  limit : Int
  usage : Int
deriving Repr, DecidableEq

/-- Result record of checkUsageLimit. -/
structure UsageLimitCheck where
  withinLimit : Bool
  limit : Int
  usage : Int
  remaining : Int
deriving Repr, DecidableEq

/-- JavaScript object key lookup (limits[limitName]); undefined becomes none. -/
def limitsLookup (limits : List (String × Int)) (key : String) : Option Int :=
  match limits.find? (fun kv => kv.1 = key) with
  | none => none
  | some kv => some kv.2

/-- The JS String.startsWith over the character sequence. -/
def strStartsWith (s stem : String) : Bool :=
  stem.data.isPrefixOf s.data

/-- The JS String.endsWith over the character sequence. -/
def strEndsWith (s tail : String) : Bool :=
  tail.data.reverse.isPrefixOf s.data.reverse

/-- The JS String.slice(0, -n): drop the last n characters. -/
def strDropRight (s : String) (n : Nat) : String :=
  ⟨s.data.take (s.data.length - n)⟩

/-- Embedding of matchesPermission (permission.ts): iterate granted
permissions; full wildcard, exact match, or dot-star suffix wildcard
whose stem followed by a dot starts the requested string; first match
returns true. -/
def matchesPermission (userPermissions : List String) (requiredPermission : String) : Bool :=
  match userPermissions with
  | [] => false
  | perm :: rest =>
    if perm = "*" then true
    else if perm = requiredPermission then true
    else if strEndsWith perm ".*" && strStartsWith requiredPermission (strDropRight perm 2 ++ ".") then true
    else matchesPermission rest requiredPermission

/-- Embedding of getUserRole (permission.ts): first membership row for
(userId, organizationId); the JS expression membership?.role || null turns
an empty role string into null. -/
def getUserRole (s : DbState) (userId orgId : String) : Option String :=
  match s.members.find? (fun m => m.userId = userId && m.organizationId = orgId) with
  | none => none
  | some m => if m.role = "" then none else some m.role

/-- Embedding of getRole (permission.ts): first roles row for (tenantId, name). -/
def getRole (s : DbState) (tenantId roleName : String) : Option RoleRow :=
  s.roles.find? (fun r => r.tenantId = tenantId && r.name = roleName)

/-- Embedding of checkPermission (permission.ts). -/
def checkPermission (s : DbState) (userId orgId permission tenantId : String) : Bool :=
  match getUserRole s userId orgId with
  | none => false
  | some roleName =>
    match getRole s tenantId roleName with
    | none => false
    | some role => matchesPermission role.permissions permission

/-- Embedding of defineRole (permission.ts): upsert by (tenantId, name).
On update, permissions and isDefault are overwritten in place; on insert a
new row is appended.  No other row is touched. -/
def defineRole (s : DbState) (tenantId roleName : String) (permissions : List String)
    (isDefault : Bool) : RoleRow × DbState :=
  match s.roles.find? (fun r => r.tenantId = tenantId && r.name = roleName) with
  | some _ =>
    let roles' := s.roles.map (fun r =>
      if r.tenantId = tenantId && r.name = roleName then
        { r with permissions := permissions, isDefault := isDefault }
      else r)
    (⟨tenantId, roleName, permissions, isDefault⟩, { s with roles := roles' })
  | none =>
    let role : RoleRow := ⟨tenantId, roleName, permissions, isDefault⟩
    (role, { s with roles := s.roles ++ [role] })

/-- Embedding of setDefaultRole (permission.ts): first clear isDefault on
every role of the tenant, then set it on the named role; if that role does
not exist the clear has already been applied and ROLE_NOT_FOUND is raised. -/
def setDefaultRole (s : DbState) (tenantId roleName : String) :
    Except String Unit × DbState :=
  let cleared := s.roles.map (fun r =>
    if r.tenantId = tenantId then { r with isDefault := false } else r)
  if cleared.any (fun r => r.tenantId = tenantId && r.name = roleName) then
    let roles' := cleared.map (fun r =>
      if r.tenantId = tenantId && r.name = roleName then { r with isDefault := true } else r)
    (Except.ok (), { s with roles := roles' })
  else
    (Except.error "ROLE_NOT_FOUND", { s with roles := cleared })

/-- Embedding of getDefaultRole (permission.ts): first role of the tenant
with isDefault set. -/
def getDefaultRole (s : DbState) (tenantId : String) : Option RoleRow :=
  s.roles.find? (fun r => r.tenantId = tenantId && r.isDefault)

/-- Embedding of updateRolePermissions (permission.ts): overwrite the
permissions of the (tenantId, name) role; ROLE_NOT_FOUND if absent. -/
def updateRolePermissions (s : DbState) (tenantId roleName : String)
    (permissions : List String) : Except String RoleRow × DbState :=
  if s.roles.any (fun r => r.tenantId = tenantId && r.name = roleName) then
    let roles' := s.roles.map (fun r =>
      if r.tenantId = tenantId && r.name = roleName then { r with permissions := permissions }
      else r)
    (Except.ok ⟨tenantId, roleName, permissions, false⟩, { s with roles := roles' })
  else
    (Except.error "ROLE_NOT_FOUND", s)

/-- Embedding of getTier (subscription.ts): first tier row matching both
the id and the caller tenant. -/
def getTier (s : DbState) (tierId tenantId : String) : Option TierRow :=
  s.tiers.find? (fun t => t.id = tierId && t.tenantId = tenantId)

/-- Builds the Subscription service value from a row and its tier. -/
def subValue (row : SubscriptionRow) (status : String) (tier : TierRow) : Subscription :=
  ⟨row.id, row.organizationId, row.tierId, status, row.startDate, row.expirationDate,
   tier.features, tier.limits⟩

/-- Embedding of getSubscriptionStatus (subscription.ts): look up the
subscription row by organization (no tenant filter on the row itself),
then the tier scoped to the caller tenant; none if either is absent.
Lazy expiration: when the expiration date is set and strictly in the past
and the stored status is active, the status expired is persisted to the
row and the returned value carries it. -/
def getSubscriptionStatus (s : DbState) (now : Int) (orgId tenantId : String) :
    Option Subscription × DbState :=
  match s.subscriptions.find? (fun sub => sub.organizationId = orgId) with
  | none => (none, s)
  | some sub =>
    match getTier s sub.tierId tenantId with
    | none => (none, s)
    | some tier =>
      match sub.expirationDate with
      | some expDate =>
        if expDate < now && sub.status = "active" then
          let subs' := s.subscriptions.map (fun r =>
            if r.id = sub.id then { r with status := "expired" } else r)
          (some (subValue sub "expired" tier), { s with subscriptions := subs' })
        else
          (some (subValue sub sub.status tier), s)
      | none => (some (subValue sub sub.status tier), s)

/-- Embedding of checkFeatureAccess (subscription.ts). -/
def checkFeatureAccess (s : DbState) (now : Int) (orgId featureName tenantId : String) :
    Bool × DbState :=
  let r := getSubscriptionStatus s now orgId tenantId
  match r.1 with
  | none => (false, r.2)
  | some sub =>
    if sub.status ≠ "active" then (false, r.2)
    else (sub.features.contains featureName, r.2)

/-- Embedding of checkLimit (subscription.ts): no subscription or a
non-active status yields (false, 0); an absent metric key yields the
unlimited sentinel (true, -1); otherwise the configured limit with
withinLimit iff currentUsage is at most the limit. -/
def checkLimit (s : DbState) (now : Int) (orgId limitName : String)
    (currentUsage : Int) (tenantId : String) : LimitCheck × DbState :=
  let r := getSubscriptionStatus s now orgId tenantId
  match r.1 with
  | none => (⟨false, 0, currentUsage⟩, r.2)
  | some sub =>
    if sub.status ≠ "active" then (⟨false, 0, currentUsage⟩, r.2)
    else
      match limitsLookup sub.limits limitName with
      | none => (⟨true, -1, currentUsage⟩, r.2)
      | some limit => (⟨decide (currentUsage ≤ limit), limit, currentUsage⟩, r.2)

/-- Embedding of subscribe (subscription.ts): TIER_NOT_FOUND if the tier
is absent for the caller tenant; if the organization already has a
subscription row, update that row in place to the new tier with status
active and fresh dates; otherwise insert a new row; in both cases point
the organization subscriptionId back-reference at the row. -/
def subscribe (s : DbState) (now : Int) (freshId orgId tierId tenantId : String)
    (expirationDate : Option Int) : Except String Subscription × DbState :=
  match getTier s tierId tenantId with
  | none => (Except.error "TIER_NOT_FOUND", s)
  | some tier =>
    match s.subscriptions.find? (fun sub => sub.organizationId = orgId) with
    | some existing =>
      let subs' := s.subscriptions.map (fun r =>
        if r.id = existing.id then
          { r with tierId := tierId, status := "active", startDate := now,
                   expirationDate := expirationDate }
        else r)
      let orgs' := s.organizations.map (fun o =>
        if o.id = orgId then { o with subscriptionId := some existing.id } else o)
      (Except.ok ⟨existing.id, existing.organizationId, tierId, "active", now,
                  expirationDate, tier.features, tier.limits⟩,
       { s with subscriptions := subs', organizations := orgs' })
    | none =>
      let row : SubscriptionRow := ⟨freshId, orgId, tierId, "active", now, expirationDate⟩
      let orgs' := s.organizations.map (fun o =>
        if o.id = orgId then { o with subscriptionId := some freshId } else o)
      (Except.ok ⟨freshId, orgId, tierId, "active", now, expirationDate,
                  tier.features, tier.limits⟩,
       { s with subscriptions := s.subscriptions ++ [row], organizations := orgs' })

/-- Embedding of updateSubscription (subscription.ts): TIER_NOT_FOUND if
the new tier is absent for the caller tenant; then the subscription row is
selected by id alone (no tenant filter) and its tier and start date are
overwritten; SUBSCRIPTION_NOT_FOUND if no row has that id. -/
def updateSubscription (s : DbState) (now : Int) (subscriptionId newTierId tenantId : String) :
    Except String Subscription × DbState :=
  match getTier s newTierId tenantId with
  | none => (Except.error "TIER_NOT_FOUND", s)
  | some tier =>
    match s.subscriptions.find? (fun r => r.id = subscriptionId) with
    | none => (Except.error "SUBSCRIPTION_NOT_FOUND", s)
    | some sub =>
      let subs' := s.subscriptions.map (fun r =>
        if r.id = subscriptionId then { r with tierId := newTierId, startDate := now } else r)
      (Except.ok ⟨sub.id, sub.organizationId, newTierId, sub.status, now,
                  sub.expirationDate, tier.features, tier.limits⟩,
       { s with subscriptions := subs' })

/-- Embedding of cancelSubscription (subscription.ts): selected by id
alone, with no tenant parameter at all; sets status cancelled and clears
the organization back-reference; SUBSCRIPTION_NOT_FOUND if absent. -/
def cancelSubscription (s : DbState) (subscriptionId : String) :
    Except String Unit × DbState :=
  match s.subscriptions.find? (fun r => r.id = subscriptionId) with
  | none => (Except.error "SUBSCRIPTION_NOT_FOUND", s)
  | some sub =>
    let subs' := s.subscriptions.map (fun r =>
      if r.id = subscriptionId then { r with status := "cancelled" } else r)
    let orgs' := s.organizations.map (fun o =>
      if o.id = sub.organizationId then { o with subscriptionId := none } else o)
    (Except.ok (), { s with subscriptions := subs', organizations := orgs' })

/-- Embedding of recordUsage (usage.ts): pure append of a timestamped row,
with no validation of the quantity. -/
def recordUsage (s : DbState) (now : Int) (freshId orgId tenantId metricName : String)
    (quantity : Int) : UsageRow × DbState :=
  let record : UsageRow := ⟨freshId, orgId, tenantId, metricName, quantity, now⟩
  (record, { s with usageRecords := s.usageRecords ++ [record] })

/-- Filter used by getUsage: organization, tenant and metric must match
and the timestamp must fall in the inclusive optional window. -/
def usageMatches (orgId tenantId metricName : String) (startDate endDate : Option Int)
    (r : UsageRow) : Bool :=
  r.organizationId = orgId && r.tenantId = tenantId && r.metricName = metricName &&
    (match startDate with | some d => d ≤ r.timestamp | none => true) &&
    (match endDate with | some d => r.timestamp ≤ d | none => true)

/-- Embedding of getUsage (usage.ts): the matching records (the source
orders them by timestamp; the total is their quantity sum, which is
order-independent). -/
def getUsage (s : DbState) (orgId tenantId metricName : String)
    (startDate endDate : Option Int) : Int × List UsageRow :=
  let records := s.usageRecords.filter (usageMatches orgId tenantId metricName startDate endDate)
  ((records.map (fun r => r.quantity)).sum, records)

/-- Embedding of getCurrentUsage (usage.ts): total from periodStart,
defaulting the start of the window to the epoch, with no end bound. -/
def getCurrentUsage (s : DbState) (orgId tenantId metricName : String)
    (periodStart : Option Int) : Int :=
  let startDate := match periodStart with | some d => d | none => 0
  (getUsage s orgId tenantId metricName (some startDate) none).1

/-- Embedding of checkUsageLimit (usage.ts): aggregate usage from
periodStart, delegate to checkLimit, and derive remaining with the
unlimited sentinel passed through. -/
def checkUsageLimit (s : DbState) (now : Int) (orgId tenantId metricName : String)
    (periodStart : Option Int) : UsageLimitCheck × DbState :=
  let usage := getCurrentUsage s orgId tenantId metricName periodStart
  let r := checkLimit s now orgId metricName usage tenantId
  (⟨r.1.withinLimit, r.1.limit, usage,
    if r.1.limit = -1 then -1 else max 0 (r.1.limit - usage)⟩, r.2)

/-! Helper views and lemmas.  The views restate the pure decision part of
the stateful reads (the design note of the spec calls this
deriveEffectiveStatus); the lemmas connect them to the embedded
operations. -/

/-- Pure view of getSubscriptionStatus: the returned value, ignoring the
persisted lazy-expiration write. -/
def subStatusView (subs : List SubscriptionRow) (tiers : List TierRow) (now : Int)
    (orgId tenantId : String) : Option Subscription :=
  match subs.find? (fun sub => sub.organizationId = orgId) with
  | none => none
  | some sub =>
    match tiers.find? (fun tr => tr.id = sub.tierId && tr.tenantId = tenantId) with
    | none => none
    | some tier =>
      match sub.expirationDate with
      | some expDate =>
        if expDate < now && sub.status = "active" then some (subValue sub "expired" tier)
        else some (subValue sub sub.status tier)
      | none => some (subValue sub sub.status tier)

theorem getSubscriptionStatus_fst (s : DbState) (now : Int) (orgId tenantId : String) :
    (getSubscriptionStatus s now orgId tenantId).1 =
      subStatusView s.subscriptions s.tiers now orgId tenantId := by
  cases h1 : s.subscriptions.find? (fun sub => sub.organizationId = orgId) with
  | none => simp [getSubscriptionStatus, subStatusView, h1]
  | some sub =>
    cases h2 : s.tiers.find? (fun tr => tr.id = sub.tierId && tr.tenantId = tenantId) with
    | none => simp [getSubscriptionStatus, subStatusView, getTier, h1, h2]
    | some tier =>
      cases h3 : sub.expirationDate with
      | none => simp [getSubscriptionStatus, subStatusView, getTier, h1, h2, h3]
      | some expDate =>
        by_cases h4 : (decide (expDate < now) && decide (sub.status = "active")) = true
        · simp [getSubscriptionStatus, subStatusView, getTier, h1, h2, h3, h4]
        · simp only [getSubscriptionStatus, subStatusView, getTier, h1, h2, h3]
          rw [if_neg h4, if_neg h4]

/-- Pure view of the value component of checkLimit. -/
def limitCheckView (subs : List SubscriptionRow) (tiers : List TierRow) (now : Int)
    (orgId limitName : String) (currentUsage : Int) (tenantId : String) : LimitCheck :=
  match subStatusView subs tiers now orgId tenantId with
  | none => ⟨false, 0, currentUsage⟩
  | some sub =>
    if sub.status ≠ "active" then ⟨false, 0, currentUsage⟩
    else
      match limitsLookup sub.limits limitName with
      | none => ⟨true, -1, currentUsage⟩
      | some limit => ⟨decide (currentUsage ≤ limit), limit, currentUsage⟩

theorem checkLimit_fst (s : DbState) (now : Int) (orgId limitName : String)
    (currentUsage : Int) (tenantId : String) :
    (checkLimit s now orgId limitName currentUsage tenantId).1 =
      limitCheckView s.subscriptions s.tiers now orgId limitName currentUsage tenantId := by
  have hv := getSubscriptionStatus_fst s now orgId tenantId
  cases h1 : (getSubscriptionStatus s now orgId tenantId).1 with
  | none => simp [checkLimit, limitCheckView, h1, ← hv]
  | some sub =>
    by_cases h2 : sub.status = "active"
    · cases h3 : limitsLookup sub.limits limitName with
      | none => simp [checkLimit, limitCheckView, h1, ← hv, h2, h3]
      | some l => simp [checkLimit, limitCheckView, h1, ← hv, h2, h3]
    · simp [checkLimit, limitCheckView, h1, ← hv, h2]

theorem checkUsageLimit_fst (s : DbState) (now : Int) (orgId tenantId metricName : String)
    (periodStart : Option Int) :
    (checkUsageLimit s now orgId tenantId metricName periodStart).1 =
      (let usage := getCurrentUsage s orgId tenantId metricName periodStart
       let lc := limitCheckView s.subscriptions s.tiers now orgId metricName usage tenantId
       ⟨lc.withinLimit, lc.limit, usage,
        if lc.limit = -1 then -1 else max 0 (lc.limit - usage)⟩) := by
  simp only [checkUsageLimit, checkLimit_fst]

/-- The single-permission match condition from the specification text. -/
def permMatchCond (perm req : String) : Prop :=
  perm = "*" ∨ perm = req ∨
    (strEndsWith perm ".*" = true ∧ strStartsWith req (strDropRight perm 2 ++ ".") = true)

/-- Claim C1: matchesPermission returns true exactly when some granted
string is the full wildcard, is exactly the requested string, or ends in
dot-star with the requested string starting with its stem followed by a
dot; a matching head short-circuits; the spec examples hold. -/
theorem C1_matchesPermission_characterization :
    (∀ (ps : List String) (req : String),
        matchesPermission ps req = true ↔ ∃ p ∈ ps, permMatchCond p req)
    ∧ (∀ (p : String) (ps : List String) (req : String),
        permMatchCond p req → matchesPermission (p :: ps) req = true)
    ∧ matchesPermission ["organizations.*"] "organizations.members.add" = true
    ∧ matchesPermission ["organizations.*"] "organizations.x" = true
    ∧ matchesPermission ["organizations.*"] "usage.view" = false := by
  have key : ∀ (ps : List String) (req : String),
      matchesPermission ps req = true ↔ ∃ p ∈ ps, permMatchCond p req := by
    intro ps req
    induction ps with
    | nil => simp [matchesPermission]
    | cons p rest ih =>
      rw [List.exists_mem_cons_iff]
      unfold matchesPermission
      by_cases h1 : p = "*"
      · simp [h1, permMatchCond]
      · rw [if_neg h1]
        by_cases h2 : p = req
        · simp [h2, permMatchCond]
        · rw [if_neg h2]
          by_cases h3 : (strEndsWith p ".*" && strStartsWith req (strDropRight p 2 ++ ".")) = true
          · rw [if_pos h3]
            rw [Bool.and_eq_true] at h3
            simp only [true_iff]
            exact Or.inl (Or.inr (Or.inr ⟨h3.1, h3.2⟩))
          · rw [if_neg h3, ih]
            rw [Bool.and_eq_true] at h3
            constructor
            · exact fun h => Or.inr h
            · rintro (hc | h)
              · rcases hc with hc | hc | hc
                · exact absurd hc h1
                · exact absurd hc h2
                · exact absurd hc (by tauto)
              · exact h
  refine ⟨key, ?_, by decide, by decide, by decide⟩
  intro p ps req h
  rw [key]
  exact ⟨p, List.mem_cons_self p ps, h⟩

/-- Witness for C1 at a concrete input. -/
theorem C1_witness : matchesPermission ["billing.*"] "billing.read" = true :=
  C1_matchesPermission_characterization.2.1 "billing.*" [] "billing.read"
    (Or.inr (Or.inr ⟨by decide, by decide⟩))

/-- Claim C2: checkLimit returns (withinLimit false, limit 0) when the
organization has no subscription or its effective status is not active;
the unlimited sentinel (true, -1) when the metric key is absent from the
tier limits; otherwise the configured limit with withinLimit iff usage is
at most the limit; the usage argument is always echoed. -/
theorem C2_checkLimit_spec (s : DbState) (now u : Int) (o m t : String) :
    ((getSubscriptionStatus s now o t).1 = none →
        (checkLimit s now o m u t).1 = ⟨false, 0, u⟩)
    ∧ (∀ sub, (getSubscriptionStatus s now o t).1 = some sub → sub.status ≠ "active" →
        (checkLimit s now o m u t).1 = ⟨false, 0, u⟩)
    ∧ (∀ sub, (getSubscriptionStatus s now o t).1 = some sub → sub.status = "active" →
        limitsLookup sub.limits m = none →
        (checkLimit s now o m u t).1 = ⟨true, -1, u⟩)
    ∧ (∀ sub l, (getSubscriptionStatus s now o t).1 = some sub → sub.status = "active" →
        limitsLookup sub.limits m = some l →
        (checkLimit s now o m u t).1 = ⟨decide (u ≤ l), l, u⟩)
    ∧ (checkLimit s now o m u t).1.usage = u := by
  have hv := getSubscriptionStatus_fst s now o t
  have hc := checkLimit_fst s now o m u t
  refine ⟨?_, ?_, ?_, ?_, ?_⟩
  · intro h
    simp [hc, limitCheckView, ← hv, h]
  · intro sub h hst
    simp [hc, limitCheckView, ← hv, h, hst]
  · intro sub h hst hl
    simp [hc, limitCheckView, ← hv, h, hst, hl]
  · intro sub l h hst hl
    simp [hc, limitCheckView, ← hv, h, hst, hl]
  · rw [hc]
    cases h1 : subStatusView s.subscriptions s.tiers now o t with
    | none => simp [limitCheckView, h1]
    | some sub =>
      by_cases hst : sub.status = "active"
      · cases h3 : limitsLookup sub.limits m with
        | none => simp [limitCheckView, h1, hst, h3]
        | some l => simp [limitCheckView, h1, hst, h3]
      · simp [limitCheckView, h1, hst]

/-- Witness for C2: the empty store has no subscription, so the check
denies with limit 0. -/
def emptyDb : DbState := ⟨[], [], [], [], [], []⟩

theorem C2_witness :
    (getSubscriptionStatus emptyDb 5 "O" "T").1 = none
    ∧ (checkLimit emptyDb 5 "O" "api_calls" 7 "T").1 = ⟨false, 0, 7⟩ :=
  ⟨by decide, (C2_checkLimit_spec emptyDb 5 7 "O" "api_calls" "T").1 (by decide)⟩

theorem checkUsageLimit_usage (s : DbState) (now : Int) (o t m : String) (ps : Option Int) :
    (checkUsageLimit s now o t m ps).1.usage = getCurrentUsage s o t m ps := by
  simp [checkUsageLimit_fst]

/-- The limit field of the pure limit check does not depend on the usage
argument. -/
theorem limitCheckView_limit_const (subs : List SubscriptionRow) (tiers : List TierRow)
    (now : Int) (o m t : String) (u u' : Int) :
    (limitCheckView subs tiers now o m u t).limit = (limitCheckView subs tiers now o m u' t).limit := by
  cases h1 : subStatusView subs tiers now o t with
  | none => simp [limitCheckView, h1]
  | some sub =>
    by_cases hst : sub.status = "active"
    · cases h3 : limitsLookup sub.limits m with
      | none => simp [limitCheckView, h1, hst, h3]
      | some l => simp [limitCheckView, h1, hst, h3]
    · simp [limitCheckView, h1, hst]

/-- Appending one usage record changes the aggregated total by the
quantity of that record when it matches the window, and by nothing
otherwise. -/
theorem getCurrentUsage_recordUsage (s : DbState) (n2 : Int) (fid o2 t2 m2 : String)
    (q : Int) (o t m : String) (ps : Option Int) :
    getCurrentUsage (recordUsage s n2 fid o2 t2 m2 q).2 o t m ps =
      getCurrentUsage s o t m ps +
        (if usageMatches o t m (some (ps.getD 0)) none ⟨fid, o2, t2, m2, q, n2⟩ then q else 0) := by
  have hps : (match ps with | some d => d | none => (0 : Int)) = ps.getD 0 := by
    cases ps <;> rfl
  simp only [getCurrentUsage, getUsage, recordUsage, hps]
  rw [List.filter_append, List.map_append, List.sum_append]
  by_cases h : usageMatches o t m (some (ps.getD 0)) none ⟨fid, o2, t2, m2, q, n2⟩
  · simp [h]
  · simp [h]

theorem getCurrentUsage_recordUsage_le (s : DbState) (n2 : Int) (fid o2 t2 m2 : String)
    (q : Int) (o t m : String) (ps : Option Int) (hq : 0 ≤ q) :
    getCurrentUsage s o t m ps ≤ getCurrentUsage (recordUsage s n2 fid o2 t2 m2 q).2 o t m ps := by
  rw [getCurrentUsage_recordUsage]
  by_cases h : usageMatches o t m (some (ps.getD 0)) none ⟨fid, o2, t2, m2, q, n2⟩
  · simp [h, hq]
  · simp [h]

/-- Concrete scenario of the spec: tier pro with api_calls capped at 1000
and an organization that has recorded 1200. -/
def exDb3 : DbState :=
  ⟨[], [],
   [⟨"tier1", "T", "pro", ["api_access", "analytics"], [("api_calls", 1000)]⟩],
   [⟨"sub1", "O", "tier1", "active", 0, none⟩],
   [⟨"O", "T", "Org", "u1", some "sub1"⟩],
   [⟨"r1", "O", "T", "api_calls", 1200, 5⟩]⟩

/-- Claim C3: checkUsageLimit aggregates usage for the organization,
tenant and metric from periodStart (epoch when omitted), takes limit and
withinLimit from checkLimit at that usage, and derives remaining as -1
for the unlimited sentinel and max 0 (limit - usage) otherwise; on the
concrete spec scenario it returns (false, 1000, 1200, 0). -/
theorem C3_checkUsageLimit_spec (s : DbState) (now : Int) (o t m : String) (ps : Option Int) :
    ((checkUsageLimit s now o t m ps).1.usage =
      ((s.usageRecords.filter (fun r =>
          r.organizationId = o && r.tenantId = t && r.metricName = m &&
          decide (ps.getD 0 ≤ r.timestamp))).map (fun r => r.quantity)).sum)
    ∧ (checkUsageLimit s now o t m ps).1.withinLimit =
        (checkLimit s now o m ((checkUsageLimit s now o t m ps).1.usage) t).1.withinLimit
    ∧ (checkUsageLimit s now o t m ps).1.limit =
        (checkLimit s now o m ((checkUsageLimit s now o t m ps).1.usage) t).1.limit
    ∧ ((checkUsageLimit s now o t m ps).1.limit = -1 →
        (checkUsageLimit s now o t m ps).1.remaining = -1)
    ∧ ((checkUsageLimit s now o t m ps).1.limit ≠ -1 →
        (checkUsageLimit s now o t m ps).1.remaining =
          max 0 ((checkUsageLimit s now o t m ps).1.limit -
                 (checkUsageLimit s now o t m ps).1.usage))
    ∧ (checkUsageLimit exDb3 100 "O" "T" "api_calls" none).1 = ⟨false, 1000, 1200, 0⟩ := by
  have hps : (match ps with | some d => d | none => (0 : Int)) = ps.getD 0 := by
    cases ps <;> rfl
  have husage : (checkUsageLimit s now o t m ps).1.usage = getCurrentUsage s o t m ps :=
    checkUsageLimit_usage s now o t m ps
  refine ⟨?_, ?_, ?_, ?_, ?_, by decide⟩
  · rw [husage]
    simp only [getCurrentUsage, getUsage, hps]
    have hf : usageMatches o t m (some (ps.getD 0)) none =
        (fun r : UsageRow => r.organizationId = o && r.tenantId = t && r.metricName = m &&
          decide (ps.getD 0 ≤ r.timestamp)) := by
      funext r
      simp [usageMatches]
    rw [hf]
  · rw [husage, checkLimit_fst]
    simp [checkUsageLimit_fst]
  · rw [husage, checkLimit_fst]
    simp [checkUsageLimit_fst]
  · intro h
    rw [checkUsageLimit_fst] at h ⊢
    simp only at h ⊢
    rw [if_pos h]
  · intro h
    rw [checkUsageLimit_fst] at h ⊢
    simp only at h ⊢
    rw [if_neg h]

/-- Witness for C3: on the concrete scenario the limit is finite, so
remaining is the floored difference. -/
theorem C3_witness :
    (checkUsageLimit exDb3 100 "O" "T" "api_calls" none).1.remaining =
      max 0 ((checkUsageLimit exDb3 100 "O" "T" "api_calls" none).1.limit -
             (checkUsageLimit exDb3 100 "O" "T" "api_calls" none).1.usage) :=
  (C3_checkUsageLimit_spec exDb3 100 "O" "T" "api_calls" none).2.2.2.2.1 (by decide)

/-- Active subscription on a tier whose limits map has no storage_gb key:
the unlimited sentinel makes remaining equal to -1, which is negative. -/
def exDb4u : DbState :=
  ⟨[], [],
   [⟨"tier1", "T", "pro", [], [("api_calls", 1000)]⟩],
   [⟨"sub1", "O", "tier1", "active", 0, none⟩],
   [⟨"O", "T", "Org", "u1", some "sub1"⟩], []⟩

/-- Counterexample to claim C4 as stated: for an unlimited metric the
remaining field returned by checkUsageLimit is -1, which is negative, so
remaining is not never negative. -/
theorem C4_counterexample :
    (checkUsageLimit exDb4u 100 "O" "T" "storage_gb" none).1.remaining = -1
    ∧ (checkUsageLimit exDb4u 100 "O" "T" "storage_gb" none).1.remaining < 0 := by
  decide

/-- Spec example state for limit monotonicity: cap 100, usage 100 + 50. -/
def exDb4 : DbState :=
  ⟨[], [],
   [⟨"tier1", "T", "basic", [], [("api_calls", 100)]⟩],
   [⟨"sub1", "O", "tier1", "active", 0, none⟩],
   [⟨"O", "T", "Org", "u1", some "sub1"⟩],
   [⟨"r1", "O", "T", "api_calls", 100, 1⟩, ⟨"r2", "O", "T", "api_calls", 50, 2⟩]⟩

/-- Claim C4 as amended: recording additional non-negative usage never
increases remaining; remaining equals the sentinel -1 exactly when the
limit is the unlimited sentinel, and is otherwise floored at 0 (never
negative); withinLimit can be false while usage exceeds the limit, as in
the spec example with cap 100 and usage 150. -/
theorem C4_amended (s : DbState) (now n2 : Int) (fid o2 t2 m2 o t m : String)
    (q : Int) (ps : Option Int) :
    (0 ≤ q →
      (checkUsageLimit (recordUsage s n2 fid o2 t2 m2 q).2 now o t m ps).1.remaining ≤
        (checkUsageLimit s now o t m ps).1.remaining)
    ∧ ((checkUsageLimit s now o t m ps).1.limit = -1 →
        (checkUsageLimit s now o t m ps).1.remaining = -1)
    ∧ ((checkUsageLimit s now o t m ps).1.limit ≠ -1 →
        0 ≤ (checkUsageLimit s now o t m ps).1.remaining)
    ∧ (checkUsageLimit exDb4 50 "O" "T" "api_calls" none).1 = ⟨false, 100, 150, 0⟩ := by
  refine ⟨?_, ?_, ?_, by decide⟩
  · intro hq
    have hu := getCurrentUsage_recordUsage_le s n2 fid o2 t2 m2 q o t m ps hq
    have hsubs : (recordUsage s n2 fid o2 t2 m2 q).2.subscriptions = s.subscriptions := rfl
    have htiers : (recordUsage s n2 fid o2 t2 m2 q).2.tiers = s.tiers := rfl
    rw [checkUsageLimit_fst, checkUsageLimit_fst]
    simp only [hsubs, htiers]
    rw [limitCheckView_limit_const s.subscriptions s.tiers now o m t
      (getCurrentUsage (recordUsage s n2 fid o2 t2 m2 q).2 o t m ps) (getCurrentUsage s o t m ps)]
    by_cases hl : (limitCheckView s.subscriptions s.tiers now o m (getCurrentUsage s o t m ps) t).limit = -1
    · rw [if_pos hl, if_pos hl]
    · rw [if_neg hl, if_neg hl]
      exact max_le_max le_rfl (sub_le_sub_left hu _)
  · intro h
    rw [checkUsageLimit_fst] at h ⊢
    simp only at h ⊢
    rw [if_pos h]
  · intro h
    rw [checkUsageLimit_fst] at h ⊢
    simp only at h ⊢
    rw [if_neg h]
    exact le_max_left 0 _

/-- Witness for C4: recording 7 more api_calls on the spec example state
does not increase remaining, and the finite-limit branch is non-negative. -/
theorem C4_witness :
    (checkUsageLimit (recordUsage exDb4 60 "r3" "O" "T" "api_calls" 7).2 50 "O" "T" "api_calls" none).1.remaining ≤
      (checkUsageLimit exDb4 50 "O" "T" "api_calls" none).1.remaining :=
  (C4_amended exDb4 50 60 "r3" "O" "T" "api_calls" "O" "T" "api_calls" 7 none).1 (by decide)

/-- Claim C5: when the stored subscription of the organization has an
expiration date in the past and stored status active, and its tier exists
for the caller tenant, getSubscriptionStatus returns the subscription with
status expired and persists that status, so a second read (at any later
clock) also returns expired directly from storage; and it returns none
when there is no subscription row or the tier has been deleted. -/
theorem C5_getSubscriptionStatus_lazy (s : DbState) (now now2 : Int) (o t : String) :
    (∀ sub e tier,
        s.subscriptions.find? (fun r => r.organizationId = o) = some sub →
        sub.expirationDate = some e → e < now → sub.status = "active" →
        getTier s sub.tierId t = some tier →
        ((getSubscriptionStatus s now o t).1.map Subscription.status = some "expired"
         ∧ (∀ r ∈ (getSubscriptionStatus s now o t).2.subscriptions,
              r.id = sub.id → r.status = "expired")
         ∧ (getSubscriptionStatus (getSubscriptionStatus s now o t).2 now2 o t).1.map
              Subscription.status = some "expired"))
    ∧ (s.subscriptions.find? (fun r => r.organizationId = o) = none →
        (getSubscriptionStatus s now o t).1 = none)
    ∧ (∀ sub, s.subscriptions.find? (fun r => r.organizationId = o) = some sub →
        getTier s sub.tierId t = none → (getSubscriptionStatus s now o t).1 = none) := by
  refine ⟨?_, ?_, ?_⟩
  · intro sub e tier h1 h2 h3 h4 h5
    have hmain : getSubscriptionStatus s now o t =
        (some (subValue sub "expired" tier),
         { s with subscriptions := s.subscriptions.map (fun r =>
             if r.id = sub.id then { r with status := "expired" } else r) }) := by
      simp [getSubscriptionStatus, h1, h5, h2, h3, h4]
    have hpf : (fun (r : SubscriptionRow) => decide (r.organizationId = o)) ∘
        (fun r => if r.id = sub.id then { r with status := "expired" } else r) =
        fun (r : SubscriptionRow) => decide (r.organizationId = o) := by
      funext r
      by_cases hc : r.id = sub.id <;> simp [hc]
    have hfind : ((s.subscriptions.map (fun r =>
        if r.id = sub.id then { r with status := "expired" } else r)).find?
          (fun r => r.organizationId = o)) = some { sub with status := "expired" } := by
      rw [List.find?_map, hpf, h1]
      simp
    refine ⟨?_, ?_, ?_⟩
    · rw [hmain]
      rfl
    · rw [hmain]
      intro r hr hid
      rcases List.mem_map.mp hr with ⟨r0, hr0, hfr⟩
      by_cases hc : r0.id = sub.id
      · rw [← hfr]
        simp [hc]
      · rw [← hfr] at hid
        simp only [if_neg hc] at hid
        exact absurd hid hc
    · rw [hmain]
      have h5b : getTier { s with subscriptions := s.subscriptions.map (fun r =>
          if r.id = sub.id then { r with status := "expired" } else r) } sub.tierId t =
          some tier := h5
      simp [getSubscriptionStatus, hfind, h5b, h2, subValue]
  · intro h1
    simp [getSubscriptionStatus, h1]
  · intro sub h1 h5
    simp [getSubscriptionStatus, h1, h5]

/-- A concrete state whose only subscription is active but has expiration
date 50 in the past of a clock at 100. -/
def exDb5 : DbState :=
  ⟨[], [], [⟨"tier1", "T", "pro", [], []⟩],
   [⟨"sub1", "O", "tier1", "active", 0, some 50⟩], [], []⟩

/-- Witness for C5 on the concrete expired-subscription state. -/
theorem C5_witness :
    (getSubscriptionStatus exDb5 100 "O" "T").1.map Subscription.status = some "expired" :=
  ((C5_getSubscriptionStatus_lazy exDb5 100 7 "O" "T").1
    ⟨"sub1", "O", "tier1", "active", 0, some 50⟩ 50 ⟨"tier1", "T", "pro", [], []⟩
    (by decide) rfl (by decide) rfl (by decide)).1

/-- Two tenants: tenant A owns tier tA, tenant B owns tier tB and the
organization oB whose subscription row is sB. -/
def exDb6 : DbState :=
  ⟨[], [], [⟨"tA", "A", "basic", [], []⟩, ⟨"tB", "B", "basic", [], []⟩],
   [⟨"sB", "oB", "tB", "active", 0, none⟩],
   [⟨"oB", "B", "OrgB", "owner", some "sB"⟩], []⟩

/-- Counterexample to claim C6 as stated: every organization of the state
belongs to tenant B, yet updateSubscription called with tenant A and a
tier of tenant A succeeds and rewrites tenant B subscription row, and
cancelSubscription (which takes no tenant at all) cancels it; neither
behaves as not found. -/
theorem C6_counterexample :
    (∀ og ∈ exDb6.organizations, og.tenantId = "B")
    ∧ (updateSubscription exDb6 100 "sB" "tA" "A").1.isOk = true
    ∧ (updateSubscription exDb6 100 "sB" "tA" "A").2.subscriptions =
        [⟨"sB", "oB", "tA", "active", 100, none⟩]
    ∧ (cancelSubscription exDb6 "sB").1.isOk = true
    ∧ (cancelSubscription exDb6 "sB").2.subscriptions =
        [⟨"sB", "oB", "tB", "cancelled", 0, none⟩] := by
  decide

/-- Claim C6 as amended: reads that filter by tenant behave as not found
cross-tenant: getSubscriptionStatus returns absent and leaves the store
untouched when there is no subscription row or when the referenced tier
does not belong to the caller tenant; getRole, getTier and getUsage only
ever return rows of the caller tenant; but for subscriptions the only
tenant filtering updateSubscription performs is on the new tier (it does
not check the subscription organization tenant), and cancelSubscription
performs none, so cross-tenant subscription writes succeed. -/
theorem C6_amended (s : DbState) (now : Int) (o t n tid m sid tid2 : String)
    (sd ed : Option Int) :
    (s.subscriptions.find? (fun r => r.organizationId = o) = none →
        getSubscriptionStatus s now o t = (none, s))
    ∧ (∀ sub, s.subscriptions.find? (fun r => r.organizationId = o) = some sub →
        getTier s sub.tierId t = none → getSubscriptionStatus s now o t = (none, s))
    ∧ (∀ r, getRole s t n = some r → r.tenantId = t)
    ∧ (∀ tr, getTier s tid t = some tr → tr.tenantId = t)
    ∧ (∀ r ∈ (getUsage s o t m sd ed).2, r.tenantId = t)
    ∧ (getTier s tid2 t = none →
        updateSubscription s now sid tid2 t = (Except.error "TIER_NOT_FOUND", s)) := by
  refine ⟨?_, ?_, ?_, ?_, ?_, ?_⟩
  · intro h1
    simp [getSubscriptionStatus, h1]
  · intro sub h1 h5
    simp [getSubscriptionStatus, h1, h5]
  · intro r hr
    have := List.find?_some hr
    simp only [Bool.and_eq_true, decide_eq_true_eq] at this
    exact this.1
  · intro tr htr
    have := List.find?_some htr
    simp only [Bool.and_eq_true, decide_eq_true_eq] at this
    exact this.2
  · intro r hr
    have := List.of_mem_filter hr
    simp only [usageMatches, Bool.and_eq_true, decide_eq_true_eq] at this
    exact this.1.1.1.2
  · intro h1
    simp [updateSubscription, h1]

/-- Witness for C6: updateSubscription with a tier id unknown to the
caller tenant fails TIER_NOT_FOUND without touching the store. -/
theorem C6_witness :
    updateSubscription exDb6 100 "sB" "missing" "A" = (Except.error "TIER_NOT_FOUND", exDb6) :=
  (C6_amended exDb6 100 "oB" "A" "n" "tid" "m" "sB" "missing" none none).2.2.2.2.2 (by decide)

/-- The roles table respects its unique index on (tenantId, name). -/
def rolesKeyUnique (s : DbState) : Prop :=
  s.roles.Pairwise (fun a b => ¬(a.tenantId = b.tenantId ∧ a.name = b.name))

/-- Number of default roles of a tenant. -/
def defaultCount (s : DbState) (t : String) : Nat :=
  (s.roles.filter (fun r => r.tenantId = t && r.isDefault)).length

theorem length_filter_map_le {α : Type} (f : α → α) (p : α → Bool) (l : List α)
    (h : ∀ a, p (f a) = true → p a = true) :
    ((l.map f).filter p).length ≤ (l.filter p).length := by
  induction l with
  | nil => simp
  | cons a l ih =>
    rw [List.map_cons]
    by_cases hpa : p (f a) = true
    · rw [List.filter_cons_of_pos hpa, List.filter_cons_of_pos (h a hpa)]
      exact Nat.succ_le_succ ih
    · rw [List.filter_cons_of_neg (by simpa using hpa)]
      by_cases hpa2 : p a = true
      · rw [List.filter_cons_of_pos hpa2]
        exact le_trans ih (Nat.le_succ _)
      · rw [List.filter_cons_of_neg (by simpa using hpa2)]
        exact ih

theorem length_filter_le_one {α : Type} (R : α → α → Prop) {p : α → Bool} {l : List α}
    (hp : l.Pairwise R)
    (h : ∀ a ∈ l, ∀ b ∈ l, p a = true → p b = true → R a b → False) :
    (l.filter p).length ≤ 1 := by
  induction l with
  | nil => simp
  | cons a l ih =>
    rw [List.pairwise_cons] at hp
    by_cases hpa : p a = true
    · have hnil : l.filter p = [] := by
        rw [List.filter_eq_nil_iff]
        intro b hb hpb
        exact h a (List.mem_cons_self a l) b (List.mem_cons_of_mem a hb) hpa hpb (hp.1 b hb)
      rw [List.filter_cons_of_pos hpa, hnil]
      simp
    · rw [List.filter_cons_of_neg (by simpa using hpa)]
      exact ih hp.2 (fun x hx y hy => h x (List.mem_cons_of_mem a hx) y (List.mem_cons_of_mem a hy))

/-- The per-row effect of a successful setDefaultRole on the roles of the
target tenant: isDefault becomes true exactly on the named role. -/
def setDefaultRow (t2 n : String) (r : RoleRow) : RoleRow :=
  if r.tenantId = t2 then { r with isDefault := decide (r.name = n) } else r

theorem setDefaultRow_tenantId (t2 n : String) (r : RoleRow) :
    (setDefaultRow t2 n r).tenantId = r.tenantId := by
  unfold setDefaultRow
  by_cases hc : r.tenantId = t2 <;> simp [hc]

theorem setDefaultRow_name (t2 n : String) (r : RoleRow) :
    (setDefaultRow t2 n r).name = r.name := by
  unfold setDefaultRow
  by_cases hc : r.tenantId = t2 <;> simp [hc]

theorem setDefaultRow_isDefault_eq (t2 n : String) (r : RoleRow) (h : r.tenantId = t2) :
    (setDefaultRow t2 n r).isDefault = decide (r.name = n) := by
  simp [setDefaultRow, h]

/-- A row of the mapped roles list that is a default of the target tenant
must be the named role. -/
theorem setDefaultRow_default_key (t2 n : String) (a0 : RoleRow)
    (hpa : ((setDefaultRow t2 n a0).tenantId = t2 && (setDefaultRow t2 n a0).isDefault) = true) :
    (setDefaultRow t2 n a0).tenantId = t2 ∧ (setDefaultRow t2 n a0).name = n := by
  rw [Bool.and_eq_true, decide_eq_true_eq] at hpa
  refine ⟨hpa.1, ?_⟩
  by_cases hc : a0.tenantId = t2
  · rw [setDefaultRow_name]
    have := hpa.2
    rw [setDefaultRow_isDefault_eq t2 n a0 hc] at this
    exact of_decide_eq_true this
  · have h1 : setDefaultRow t2 n a0 = a0 := by simp [setDefaultRow, hc]
    rw [h1] at hpa
    exact absurd hpa.1 hc

theorem setDefaultRole_roles_of_any (s : DbState) (t2 n : String)
    (hc : (s.roles.map (fun r => if r.tenantId = t2 then { r with isDefault := false } else r)).any
        (fun r => r.tenantId = t2 && r.name = n) = true) :
    (setDefaultRole s t2 n).1 = Except.ok ()
    ∧ (setDefaultRole s t2 n).2.roles = s.roles.map (setDefaultRow t2 n) := by
  constructor
  · simp [setDefaultRole, hc]
  · simp only [setDefaultRole, hc, if_true, List.map_map]
    apply List.map_congr_left
    intro a _
    by_cases hc1 : a.tenantId = t2
    · by_cases hc2 : a.name = n <;> simp [Function.comp, setDefaultRow, hc1, hc2]
    · simp [Function.comp, setDefaultRow, hc1]

theorem setDefaultRole_ok_of_exists (s : DbState) (t2 n : String)
    (h : ∃ r ∈ s.roles, r.tenantId = t2 ∧ r.name = n) :
    (setDefaultRole s t2 n).1 = Except.ok ()
    ∧ (setDefaultRole s t2 n).2.roles = s.roles.map (setDefaultRow t2 n) := by
  apply setDefaultRole_roles_of_any
  rw [List.any_eq_true]
  rcases h with ⟨r, hr, h1, h2⟩
  exact ⟨_, List.mem_map_of_mem _ hr, by simp [h1, h2]⟩

/-- Counterexample to claim C7 as stated: starting from the empty store,
two defineRole calls with isDefault true leave two default roles for the
same tenant, because defineRole does not clear the previous default. -/
theorem C7_counterexample :
    ((defineRole (defineRole emptyDb "t" "A" [] true).2 "t" "B" [] true).2.roles.filter
      (fun r => r.tenantId = "t" && r.isDefault)).length = 2 := by
  decide

/-- Claim C7 as amended: setDefaultRole, updateRolePermissions, and
defineRole with isDefault false preserve the at-most-one-default-per-
tenant invariant (setDefaultRole under the unique (tenantId, name) index
of the store), while defineRole with isDefault true can create a second
default; and after setDefaultRole(t, A) then setDefaultRole(t, B) with
both roles present and A distinct from B, the default role of t is named
B and role A has isDefault false. -/
theorem C7_amended :
    (∀ (s : DbState) (t t2 n : String), rolesKeyUnique s → defaultCount s t ≤ 1 →
        defaultCount (setDefaultRole s t2 n).2 t ≤ 1)
    ∧ (∀ (s : DbState) (t t2 n : String) (ps : List String), defaultCount s t ≤ 1 →
        defaultCount (defineRole s t2 n ps false).2 t ≤ 1)
    ∧ (∀ (s : DbState) (t t2 n : String) (ps : List String), defaultCount s t ≤ 1 →
        defaultCount (updateRolePermissions s t2 n ps).2 t ≤ 1)
    ∧ (∀ (s : DbState) (t A B : String),
        (∃ r ∈ s.roles, r.tenantId = t ∧ r.name = A) →
        (∃ r ∈ s.roles, r.tenantId = t ∧ r.name = B) →
        A ≠ B →
        ((setDefaultRole s t A).1 = Except.ok ()
         ∧ (setDefaultRole (setDefaultRole s t A).2 t B).1 = Except.ok ()
         ∧ (∃ r, getDefaultRole (setDefaultRole (setDefaultRole s t A).2 t B).2 t = some r
              ∧ r.name = B)
         ∧ (∃ r, getRole (setDefaultRole (setDefaultRole s t A).2 t B).2 t A = some r
              ∧ r.isDefault = false))) := by
  refine ⟨?_, ?_, ?_, ?_⟩
  · intro s t t2 n huniq hle
    by_cases hc : ((s.roles.map (fun r => if r.tenantId = t2 then { r with isDefault := false } else r)).any
        (fun r => r.tenantId = t2 && r.name = n)) = true
    · have hroles := (setDefaultRole_roles_of_any s t2 n hc).2
      unfold defaultCount
      rw [hroles]
      by_cases ht : t = t2
      · subst ht
        refine length_filter_le_one (fun a b : RoleRow => ¬(a.tenantId = b.tenantId ∧ a.name = b.name)) ?_ ?_
        · rw [List.pairwise_map]
          refine huniq.imp ?_
          intro a b hab hkey
          exact hab ⟨by rw [← setDefaultRow_tenantId t n a, ← setDefaultRow_tenantId t n b, hkey.1],
                     by rw [← setDefaultRow_name t n a, ← setDefaultRow_name t n b, hkey.2]⟩
        · intro a ha b hb hpa hpb hR
          rcases List.mem_map.mp ha with ⟨a0, _, rfl⟩
          rcases List.mem_map.mp hb with ⟨b0, _, rfl⟩
          have hka := setDefaultRow_default_key t n a0 hpa
          have hkb := setDefaultRow_default_key t n b0 hpb
          exact hR ⟨hka.1.trans hkb.1.symm, hka.2.trans hkb.2.symm⟩
      · refine le_trans (length_filter_map_le _ _ _ ?_) hle
        intro a hpa
        have hk := (Bool.and_eq_true _ _).mp hpa
        rw [decide_eq_true_eq, setDefaultRow_tenantId] at hk
        by_cases hc2 : a.tenantId = t2
        · exact absurd (hk.1.symm.trans hc2) ht
        · have h1 : setDefaultRow t2 n a = a := by simp [setDefaultRow, hc2]
          rw [h1] at hpa
          exact hpa
    · have hroles : (setDefaultRole s t2 n).2.roles =
          s.roles.map (fun r => if r.tenantId = t2 then { r with isDefault := false } else r) := by
        simp [setDefaultRole, hc]
      unfold defaultCount
      rw [hroles]
      refine le_trans (length_filter_map_le _ _ _ ?_) hle
      intro a hpa
      by_cases hc2 : a.tenantId = t2
      · rw [if_pos hc2] at hpa
        simp at hpa
      · rw [if_neg hc2] at hpa
        exact hpa
  · intro s t t2 n ps hle
    unfold defaultCount at hle ⊢
    cases hf : s.roles.find? (fun r => r.tenantId = t2 && r.name = n) with
    | some r0 =>
      have hroles : (defineRole s t2 n ps false).2.roles =
          s.roles.map (fun r => if r.tenantId = t2 && r.name = n then
            { r with permissions := ps, isDefault := false } else r) := by
        simp [defineRole, hf]
      rw [hroles]
      refine le_trans (length_filter_map_le _ _ _ ?_) hle
      intro a hpa
      by_cases hc : (decide (a.tenantId = t2) && decide (a.name = n)) = true
      · rw [if_pos hc] at hpa
        simp at hpa
      · rw [if_neg hc] at hpa
        exact hpa
    | none =>
      have hroles : (defineRole s t2 n ps false).2.roles = s.roles ++ [⟨t2, n, ps, false⟩] := by
        simp [defineRole, hf]
      rw [hroles, List.filter_append]
      simpa using hle
  · intro s t t2 n ps hle
    unfold defaultCount at hle ⊢
    by_cases hc : (s.roles.any (fun r => r.tenantId = t2 && r.name = n)) = true
    · have hroles : (updateRolePermissions s t2 n ps).2.roles =
          s.roles.map (fun r => if r.tenantId = t2 && r.name = n then
            { r with permissions := ps } else r) := by
        simp [updateRolePermissions, hc]
      rw [hroles]
      refine le_trans (length_filter_map_le _ _ _ ?_) hle
      intro a hpa
      by_cases hc2 : (decide (a.tenantId = t2) && decide (a.name = n)) = true
      · rw [if_pos hc2] at hpa
        simpa using hpa
      · rw [if_neg hc2] at hpa
        exact hpa
    · have hs : (updateRolePermissions s t2 n ps).2 = s := by
        simp [updateRolePermissions, hc]
      rw [hs]
      exact hle
  · intro s t A B hA hB hAB
    obtain ⟨hok1, hroles1⟩ := setDefaultRole_ok_of_exists s t A hA
    have hB1 : ∃ r ∈ (setDefaultRole s t A).2.roles, r.tenantId = t ∧ r.name = B := by
      rcases hB with ⟨r, hr, h1, h2⟩
      refine ⟨setDefaultRow t A r, ?_, ?_, ?_⟩
      · rw [hroles1]
        exact List.mem_map_of_mem _ hr
      · rw [setDefaultRow_tenantId]
        exact h1
      · rw [setDefaultRow_name]
        exact h2
    obtain ⟨hok2, hroles2⟩ := setDefaultRole_ok_of_exists _ t B hB1
    have hroles2' : (setDefaultRole (setDefaultRole s t A).2 t B).2.roles =
        (s.roles.map (setDefaultRow t A)).map (setDefaultRow t B) := by
      rw [hroles2, hroles1]
    refine ⟨hok1, hok2, ?_, ?_⟩
    · rcases hB with ⟨rB, hrB, hB1', hB2'⟩
      have hmem : setDefaultRow t B (setDefaultRow t A rB) ∈
          (s.roles.map (setDefaultRow t A)).map (setDefaultRow t B) :=
        List.mem_map_of_mem _ (List.mem_map_of_mem _ hrB)
      have ht' : (setDefaultRow t A rB).tenantId = t := by
        rw [setDefaultRow_tenantId]; exact hB1'
      have hn' : (setDefaultRow t A rB).name = B := by
        rw [setDefaultRow_name]; exact hB2'
      have hpred : ((setDefaultRow t B (setDefaultRow t A rB)).tenantId = t &&
          (setDefaultRow t B (setDefaultRow t A rB)).isDefault) = true := by
        rw [Bool.and_eq_true]
        constructor
        · rw [decide_eq_true_eq, setDefaultRow_tenantId]
          exact ht'
        · rw [setDefaultRow_isDefault_eq t B _ ht', hn']
          simp
      have hsome : (((s.roles.map (setDefaultRow t A)).map (setDefaultRow t B)).find?
          (fun r => r.tenantId = t && r.isDefault)).isSome :=
        List.find?_isSome.mpr ⟨_, hmem, hpred⟩
      obtain ⟨r, hr⟩ := Option.isSome_iff_exists.mp hsome
      refine ⟨r, ?_, ?_⟩
      · unfold getDefaultRole
        rw [hroles2']
        exact hr
      · have hrmem := List.mem_of_find?_eq_some hr
        have hrpred := List.find?_some hr
        rcases List.mem_map.mp hrmem with ⟨r1, hr1, rfl⟩
        rw [Bool.and_eq_true, decide_eq_true_eq] at hrpred
        have ht1 : r1.tenantId = t := by
          rw [← setDefaultRow_tenantId t B r1]
          exact hrpred.1
        have hd := hrpred.2
        rw [setDefaultRow_isDefault_eq t B r1 ht1] at hd
        rw [setDefaultRow_name]
        exact of_decide_eq_true hd
    · rcases hA with ⟨rA, hrA, hA1, hA2⟩
      have hmem : setDefaultRow t B (setDefaultRow t A rA) ∈
          (s.roles.map (setDefaultRow t A)).map (setDefaultRow t B) :=
        List.mem_map_of_mem _ (List.mem_map_of_mem _ hrA)
      have hpred : ((setDefaultRow t B (setDefaultRow t A rA)).tenantId = t &&
          (setDefaultRow t B (setDefaultRow t A rA)).name = A) = true := by
        rw [Bool.and_eq_true, decide_eq_true_eq, decide_eq_true_eq]
        constructor
        · rw [setDefaultRow_tenantId, setDefaultRow_tenantId]
          exact hA1
        · rw [setDefaultRow_name, setDefaultRow_name]
          exact hA2
      have hsome : (((s.roles.map (setDefaultRow t A)).map (setDefaultRow t B)).find?
          (fun r => r.tenantId = t && r.name = A)).isSome :=
        List.find?_isSome.mpr ⟨_, hmem, hpred⟩
      obtain ⟨r, hr⟩ := Option.isSome_iff_exists.mp hsome
      refine ⟨r, ?_, ?_⟩
      · unfold getRole
        rw [hroles2']
        exact hr
      · have hrmem := List.mem_of_find?_eq_some hr
        have hrpred := List.find?_some hr
        rcases List.mem_map.mp hrmem with ⟨r1, hr1, rfl⟩
        rw [Bool.and_eq_true, decide_eq_true_eq, decide_eq_true_eq] at hrpred
        have ht1 : r1.tenantId = t := by
          rw [← setDefaultRow_tenantId t B r1]
          exact hrpred.1
        have hn1 : r1.name = A := by
          rw [← setDefaultRow_name t B r1]
          exact hrpred.2
        rw [setDefaultRow_isDefault_eq t B r1 ht1, hn1]
        simp [hAB]

/-- Store with two roles A and B of tenant t, neither default. -/
def exDb7 : DbState :=
  ⟨[⟨"t", "A", [], false⟩, ⟨"t", "B", [], false⟩], [], [], [], [], []⟩

/-- Witness for C7: the two-step default switch succeeds on the concrete
two-role store. -/
theorem C7_witness :
    (setDefaultRole (setDefaultRole exDb7 "t" "A").2 "t" "B").1 = Except.ok () :=
  (C7_amended.2.2.2 exDb7 "t" "A" "B"
    ⟨⟨"t", "A", [], false⟩, by decide, rfl, rfl⟩
    ⟨⟨"t", "B", [], false⟩, by decide, rfl, rfl⟩
    (by decide)).2.1

/-- Store where the membership row carries the empty string as role name
while a role actually named by the empty string exists with the full
wildcard permission. -/
def exDb8 : DbState :=
  ⟨[⟨"t", "", ["*"], false⟩], [⟨"O", "u", ""⟩], [], [], [], []⟩

/-- Counterexample to claim C8 as stated: the user has a membership whose
role name (the empty string) does have a corresponding Role for the
tenant, and that role matches the requested permission, yet
checkPermission returns false: the JS expression membership row role or
null coerces the empty string to null. -/
theorem C8_counterexample :
    exDb8.members.find? (fun m => m.userId = "u" && m.organizationId = "O") = some ⟨"O", "u", ""⟩
    ∧ getRole exDb8 "t" "" = some ⟨"t", "", ["*"], false⟩
    ∧ matchesPermission ["*"] "usage.view" = true
    ∧ checkPermission exDb8 "u" "O" "usage.view" "t" = false := by
  refine ⟨by decide, by decide, by decide, by decide⟩

/-- Claim C8 as amended: checkPermission never raises and returns false
when the user has no membership in the organization, when the membership
role name is the empty string (coerced to null by the source), or when
the role name has no corresponding Role for the tenant; otherwise it
returns exactly matchesPermission of the role permissions and the
requested permission. -/
theorem C8_amended (s : DbState) (u o p t : String) :
    (s.members.find? (fun m => m.userId = u && m.organizationId = o) = none →
        checkPermission s u o p t = false)
    ∧ (∀ mem, s.members.find? (fun m => m.userId = u && m.organizationId = o) = some mem →
        mem.role = "" → checkPermission s u o p t = false)
    ∧ (∀ mem, s.members.find? (fun m => m.userId = u && m.organizationId = o) = some mem →
        mem.role ≠ "" → getRole s t mem.role = none → checkPermission s u o p t = false)
    ∧ (∀ mem role, s.members.find? (fun m => m.userId = u && m.organizationId = o) = some mem →
        mem.role ≠ "" → getRole s t mem.role = some role →
        checkPermission s u o p t = matchesPermission role.permissions p) := by
  refine ⟨?_, ?_, ?_, ?_⟩
  · intro h
    simp [checkPermission, getUserRole, h]
  · intro mem h hrole
    simp [checkPermission, getUserRole, h, hrole]
  · intro mem h hrole hget
    simp [checkPermission, getUserRole, h, hrole, hget]
  · intro mem role h hrole hget
    simp [checkPermission, getUserRole, h, hrole, hget]

/-- Witness for C8: a user with no membership in the empty store is
denied without an error. -/
theorem C8_witness : checkPermission emptyDb "u" "O" "usage.view" "t" = false :=
  (C8_amended emptyDb "u" "O" "usage.view" "t").1 (by decide)

/-- Number of subscription rows of an organization. -/
def subCount (s : DbState) (o : String) : Nat :=
  (s.subscriptions.filter (fun r => r.organizationId = o)).length

/-- Claim C9: subscribe fails TIER_NOT_FOUND when the tier is absent for
the caller tenant; when the organization already has a subscription row
the row is updated in place (same id, new tier, status active, fresh
dates) with no insertion, otherwise a single new row is appended; in both
cases the organization back-reference points at the row; consequently
subscribe preserves the at-most-one-subscription-row-per-organization
invariant. -/
theorem C9_subscribe_spec (s : DbState) (now : Int) (fid o tid t : String) (exp : Option Int) :
    (getTier s tid t = none →
        subscribe s now fid o tid t exp = (Except.error "TIER_NOT_FOUND", s))
    ∧ (∀ tier ex, getTier s tid t = some tier →
        s.subscriptions.find? (fun r => r.organizationId = o) = some ex →
        ((subscribe s now fid o tid t exp).1 =
            Except.ok ⟨ex.id, ex.organizationId, tid, "active", now, exp, tier.features, tier.limits⟩
         ∧ (subscribe s now fid o tid t exp).2.subscriptions.length = s.subscriptions.length
         ∧ (∀ r ∈ (subscribe s now fid o tid t exp).2.subscriptions, r.id = ex.id →
              r.tierId = tid ∧ r.status = "active" ∧ r.startDate = now ∧ r.expirationDate = exp)
         ∧ (∀ og ∈ (subscribe s now fid o tid t exp).2.organizations, og.id = o →
              og.subscriptionId = some ex.id)))
    ∧ (∀ tier, getTier s tid t = some tier →
        s.subscriptions.find? (fun r => r.organizationId = o) = none →
        ((subscribe s now fid o tid t exp).1 =
            Except.ok ⟨fid, o, tid, "active", now, exp, tier.features, tier.limits⟩
         ∧ (subscribe s now fid o tid t exp).2.subscriptions =
             s.subscriptions ++ [⟨fid, o, tid, "active", now, exp⟩]
         ∧ (∀ og ∈ (subscribe s now fid o tid t exp).2.organizations, og.id = o →
              og.subscriptionId = some fid)))
    ∧ ((∀ o2, subCount s o2 ≤ 1) → ∀ o2, subCount (subscribe s now fid o tid t exp).2 o2 ≤ 1) := by
  refine ⟨?_, ?_, ?_, ?_⟩
  · intro h
    simp [subscribe, h]
  · intro tier ex htier hex
    have hmain : subscribe s now fid o tid t exp =
        (Except.ok ⟨ex.id, ex.organizationId, tid, "active", now, exp, tier.features, tier.limits⟩,
         { s with
           subscriptions := s.subscriptions.map (fun r =>
             if r.id = ex.id then
               { r with tierId := tid, status := "active", startDate := now,
                        expirationDate := exp }
             else r),
           organizations := s.organizations.map (fun og =>
             if og.id = o then { og with subscriptionId := some ex.id } else og) }) := by
      simp [subscribe, htier, hex]
    rw [hmain]
    refine ⟨rfl, by simp, ?_, ?_⟩
    · intro r hr hid
      rcases List.mem_map.mp hr with ⟨r0, _, rfl⟩
      by_cases hc : r0.id = ex.id
      · simp [hc]
      · rw [if_neg hc] at hid ⊢
        exact absurd hid hc
    · intro og hog hid
      rcases List.mem_map.mp hog with ⟨og0, _, rfl⟩
      by_cases hc : og0.id = o
      · simp [hc]
      · rw [if_neg hc] at hid ⊢
        exact absurd hid hc
  · intro tier htier hex
    have hmain : subscribe s now fid o tid t exp =
        (Except.ok ⟨fid, o, tid, "active", now, exp, tier.features, tier.limits⟩,
         { s with
           subscriptions := s.subscriptions ++ [⟨fid, o, tid, "active", now, exp⟩],
           organizations := s.organizations.map (fun og =>
             if og.id = o then { og with subscriptionId := some fid } else og) }) := by
      simp [subscribe, htier, hex]
    rw [hmain]
    refine ⟨rfl, rfl, ?_⟩
    intro og hog hid
    rcases List.mem_map.mp hog with ⟨og0, _, rfl⟩
    by_cases hc : og0.id = o
    · simp [hc]
    · rw [if_neg hc] at hid ⊢
      exact absurd hid hc
  · intro hle o2
    cases htier : getTier s tid t with
    | none =>
      have h1 : (subscribe s now fid o tid t exp).2 = s := by
        simp [subscribe, htier]
      rw [h1]
      exact hle o2
    | some tier =>
      cases hex : s.subscriptions.find? (fun r => r.organizationId = o) with
      | some ex =>
        have h1 : (subscribe s now fid o tid t exp).2.subscriptions =
            s.subscriptions.map (fun r =>
              if r.id = ex.id then
                { r with tierId := tid, status := "active", startDate := now,
                         expirationDate := exp }
              else r) := by
          simp [subscribe, htier, hex]
        unfold subCount
        rw [h1]
        refine le_trans (length_filter_map_le _ _ _ ?_) (hle o2)
        intro a hpa
        by_cases hc : a.id = ex.id
        · rw [if_pos hc] at hpa
          simpa using hpa
        · rw [if_neg hc] at hpa
          exact hpa
      | none =>
        have h1 : (subscribe s now fid o tid t exp).2.subscriptions =
            s.subscriptions ++ [⟨fid, o, tid, "active", now, exp⟩] := by
          simp [subscribe, htier, hex]
        unfold subCount
        rw [h1, List.filter_append, List.length_append]
        by_cases ho : o2 = o
        · subst ho
          have hnil : s.subscriptions.filter (fun r => r.organizationId = o2) = [] := by
            rw [List.filter_eq_nil_iff]
            intro x hx hpx
            exact absurd (of_decide_eq_true hpx) (by
              have := List.find?_eq_none.mp hex x hx
              simpa using this)
          rw [hnil]
          simp
        · have hone : List.filter (fun r => r.organizationId = o2)
              [(⟨fid, o, tid, "active", now, exp⟩ : SubscriptionRow)] = [] := by
            simp [Ne.symm ho]
          rw [hone]
          simpa using hle o2

/-- Witness for C9: subscribing the organization of exDb6 again to its
own tier updates in place and keeps a single subscription row. -/
theorem C9_witness :
    (subscribe exDb6 200 "fresh" "oB" "tB" "B" none).1 =
      Except.ok ⟨"sB", "oB", "tB", "active", 200, none, [], []⟩ :=
  ((C9_subscribe_spec exDb6 200 "fresh" "oB" "tB" "B" none).2.1
    ⟨"tB", "B", "basic", [], []⟩ ⟨"sB", "oB", "tB", "active", 0, none⟩
    (by decide) (by decide)).1

/-- Claim C10: recordUsage validates nothing: for every quantity,
including zero and negative values, it returns the new record and appends
it verbatim to the store, and the getUsage total moves by exactly that
quantity, so a negative quantity strictly reduces the total. -/
theorem C10_recordUsage_no_validation (s : DbState) (now : Int) (fid o t m : String) (q : Int) :
    ((recordUsage s now fid o t m q).1 = ⟨fid, o, t, m, q, now⟩)
    ∧ ((recordUsage s now fid o t m q).2.usageRecords =
        s.usageRecords ++ [⟨fid, o, t, m, q, now⟩])
    ∧ ((getUsage (recordUsage s now fid o t m q).2 o t m none none).1 =
        (getUsage s o t m none none).1 + q)
    ∧ (q < 0 →
        (getUsage (recordUsage s now fid o t m q).2 o t m none none).1 <
          (getUsage s o t m none none).1) := by
  have h3 : (getUsage (recordUsage s now fid o t m q).2 o t m none none).1 =
      (getUsage s o t m none none).1 + q := by
    simp only [getUsage, recordUsage]
    rw [List.filter_append, List.map_append, List.sum_append]
    simp [usageMatches]
  refine ⟨rfl, rfl, h3, ?_⟩
  intro hq
  rw [h3]
  linarith

/-- Witness for C10: recording -5 api_calls lowers the aggregate. -/
theorem C10_witness :
    (getUsage (recordUsage exDb3 9 "r9" "O" "T" "api_calls" (-5)).2 "O" "T" "api_calls" none none).1 <
      (getUsage exDb3 "O" "T" "api_calls" none none).1 :=
  (C10_recordUsage_no_validation exDb3 9 "r9" "O" "T" "api_calls" (-5)).2.2.2 (by decide)

end SaaS
